import Mathlib

/-!
Formal model of the `algorand-risein` repository.

Part 1 models the on-chain certificate registry
(`smart_contracts/certificate_registry/contract.py`).  The contract keeps a
`BoxMap(Bytes, Bytes)` from certificate hash to owner address and exposes the
three ABI methods `register_certificate`, `verify_certificate` and
`transfer_certificate`.  Byte strings are modelled as lists of naturals, the
box map as an association list, and an `assert` failure as `Except.error`
(the Algorand ledger reverts the whole state transition on a failed assert).

Part 2 models the off-chain scripts: the SHA-256 digest (full FIPS 180-4
implementation over byte lists), the hash recomputation of
`scripts/gen_cert.py`, the two minting scripts `scripts/mint.py` and
`scripts/mint_nft.py`, and the verification service `verify.py`.
-/

/-- A byte string (Python `bytes` / algopy `Bytes`). -/
abbrev Bytes := List Nat

/-- The box-map storage of the contract: certificate hash ↦ owner bytes. -/
abbrev BoxStore := List (Bytes × Bytes)

/-- Model of algopy `BoxMap.get(key, default)`: value stored at `k`, or `d` when no
box for `k` exists. -/
def boxGet (m : BoxStore) (k : Bytes) (d : Bytes) : Bytes :=
  match m with
  | [] => d
  | (k', v) :: rest => if k' = k then v else boxGet rest k d

/-- Whether a box for key `k` exists in the store. -/
def boxHasKey (m : BoxStore) (k : Bytes) : Bool :=
  match m with
  | [] => false
  | (k', _) :: rest => if k' = k then true else boxHasKey rest k

/-- Model of algopy `self.certificates[key] = value`: create the box or overwrite
its contents. -/
def boxSet (m : BoxStore) (k : Bytes) (v : Bytes) : BoxStore :=
  match m with
  | [] => [(k, v)]
  | (k', v') :: rest => if k' = k then (k, v) :: rest else (k', v') :: boxSet rest k v

/-- The global state of the `CertificateRegistry` contract. -/
structure RegistryState where
  certificates : BoxStore
deriving DecidableEq, Repr

/-- Result of one ABI method call: the new state and the returned bytes on
success, the assert message on rejection (the ledger then reverts). -/
abbrev MethodResult := Except String (RegistryState × Bytes)

/-- Model of `CertificateRegistry.register_certificate(cert_hash)`, called by the
account whose address bytes are `sender` (`Txn.sender.bytes`). -/
def register_certificate (sender : Bytes) (cert_hash : Bytes)
    (s : RegistryState) : MethodResult :=
  let existing_owner := boxGet s.certificates cert_hash []
  if existing_owner = ([] : Bytes) then
    Except.ok (⟨boxSet s.certificates cert_hash sender⟩, [])
  else
    Except.error "Certificate hash is already registered."

/-- Model of `CertificateRegistry.verify_certificate(cert_hash)`: returns the owner's
address bytes if found, otherwise empty bytes; no assert, no state write. -/
def verify_certificate (cert_hash : Bytes) (s : RegistryState) : MethodResult :=
  let owner := boxGet s.certificates cert_hash []
  Except.ok (s, owner)

/-- Model of `CertificateRegistry.transfer_certificate(cert_hash, new_owner)`. -/
def transfer_certificate (sender : Bytes) (cert_hash : Bytes)
    (new_owner : Bytes) (s : RegistryState) : MethodResult :=
  let current_owner := boxGet s.certificates cert_hash []
  if current_owner = ([] : Bytes) then
    Except.error "Certificate not found or not registered."
  else if current_owner = sender then
    Except.ok (⟨boxSet s.certificates cert_hash new_owner⟩, [])
  else
    Except.error "Permission denied: Only the current owner can transfer."

/-- The state the ledger keeps after a call: the new state on success, the
old state on rejection (atomic abort of the whole transition). -/
def runCall (s : RegistryState) (r : MethodResult) : RegistryState :=
  match r with
  | Except.ok (s', _) => s'
  | Except.error _ => s

/-- One successful state-changing call by `sender` (register or transfer). -/
def registryStep (sender : Bytes) (s s' : RegistryState) : Prop :=
  (∃ h v, register_certificate sender h s = Except.ok (s', v)) ∨
  (∃ h n v, transfer_certificate sender h n s = Except.ok (s', v))

/-- States reachable from the freshly deployed contract (empty box map) by
successful calls from valid 32-byte Algorand addresses. -/
inductive Reachable : RegistryState → Prop
  | init : Reachable ⟨[]⟩
  | register (s s' : RegistryState) (sender h v : Bytes) :
      Reachable s → sender.length = 32 →
      register_certificate sender h s = Except.ok (s', v) → Reachable s'
  | transfer (s s' : RegistryState) (sender h n v : Bytes) :
      Reachable s → sender.length = 32 →
      transfer_certificate sender h n s = Except.ok (s', v) → Reachable s'

/-- A concrete 32-byte address used in witnesses. -/
def addrA : Bytes := List.replicate 32 1

/-- A second concrete 32-byte address used in witnesses. -/
def addrB : Bytes := List.replicate 32 2

-- Part 2: SHA-256 (FIPS 180-4), operating on byte lists, 32-bit words as
-- naturals reduced mod 4294967296.

/-- Right rotation of a 32-bit word (input assumed < 2^32). -/
def rotr32 (n x : Nat) : Nat := x / 2 ^ n + x % 2 ^ n * 2 ^ (32 - n)

/-- SHA-256 `Ch(x,y,z) = (x ∧ y) ⊕ (¬x ∧ z)`. -/
def sha256Ch (x y z : Nat) : Nat := (x &&& y) ^^^ ((4294967295 - x) &&& z)

/-- SHA-256 `Maj(x,y,z)`. -/
def sha256Maj (x y z : Nat) : Nat := (x &&& y) ^^^ (x &&& z) ^^^ (y &&& z)

/-- SHA-256 `Σ0`. -/
def bigSigma0 (x : Nat) : Nat := rotr32 2 x ^^^ rotr32 13 x ^^^ rotr32 22 x

/-- SHA-256 `Σ1`. -/
def bigSigma1 (x : Nat) : Nat := rotr32 6 x ^^^ rotr32 11 x ^^^ rotr32 25 x

/-- SHA-256 `σ0`. -/
def smallSigma0 (x : Nat) : Nat := rotr32 7 x ^^^ rotr32 18 x ^^^ x / 8

/-- SHA-256 `σ1`. -/
def smallSigma1 (x : Nat) : Nat := rotr32 17 x ^^^ rotr32 19 x ^^^ x / 1024

/-- The 64 SHA-256 round constants, in decimal. -/
def sha256K : List Nat :=
  [1116352408, 1899447441, 3049323471, 3921009573, 961987163, 1508970993,
   2453635748, 2870763221, 3624381080, 310598401, 607225278, 1426881987,
   1925078388, 2162078206, 2614888103, 3248222580, 3835390401, 4022224774,
   264347078, 604807628, 770255983, 1249150122, 1555081692, 1996064986,
   2554220882, 2821834349, 2952996808, 3210313671, 3336571891, 3584528711,
   113926993, 338241895, 666307205, 773529912, 1294757372, 1396182291,
   1695183700, 1986661051, 2177026350, 2456956037, 2730485921, 2820302411,
   3259730800, 3345764771, 3516065817, 3600352804, 4094571909, 275423344,
   430227734, 506948616, 659060556, 883997877, 958139571, 1322822218,
   1537002063, 1747873779, 1955562222, 2024104815, 2227730452, 2361852424,
   2428436474, 2756734187, 3204031479, 3329325298]

/-- Working state of the compression function. -/
structure Sha256St where
  a : Nat
  b : Nat
  c : Nat
  d : Nat
  e : Nat
  f : Nat
  g : Nat
  h : Nat
deriving DecidableEq, Repr

/-- SHA-256 initial hash value, in decimal. -/
def sha256H0 : Sha256St :=
  ⟨1779033703, 3144134277, 1013904242, 2773480762,
   1359893119, 2600822924, 528734635, 1541459225⟩

/-- One round of the SHA-256 compression function. -/
def sha256Round (s : Sha256St) (k w : Nat) : Sha256St :=
  let t1 := (s.h + bigSigma1 s.e + sha256Ch s.e s.f s.g + k + w) % 4294967296
  let t2 := (bigSigma0 s.a + sha256Maj s.a s.b s.c) % 4294967296
  ⟨(t1 + t2) % 4294967296, s.a, s.b, s.c, (s.d + t1) % 4294967296, s.e, s.f, s.g⟩

/-- Append the next message-schedule word to `ws`. -/
def sha256NextW (ws : List Nat) : Nat :=
  let t := ws.length
  (smallSigma1 (ws.getD (t - 2) 0) + ws.getD (t - 7) 0 +
   smallSigma0 (ws.getD (t - 15) 0) + ws.getD (t - 16) 0) % 4294967296

/-- Extend the message schedule by `n` words. -/
def sha256Extend : Nat → List Nat → List Nat
  | 0, ws => ws
  | n + 1, ws => sha256Extend n (ws ++ [sha256NextW ws])

/-- Compress one 16-word block into the running hash value. -/
def sha256Compress (st : Sha256St) (block : List Nat) : Sha256St :=
  let w := sha256Extend 48 block
  let r := (sha256K.zip w).foldl (fun acc p => sha256Round acc p.1 p.2) st
  ⟨(st.a + r.a) % 4294967296, (st.b + r.b) % 4294967296,
   (st.c + r.c) % 4294967296, (st.d + r.d) % 4294967296,
   (st.e + r.e) % 4294967296, (st.f + r.f) % 4294967296,
   (st.g + r.g) % 4294967296, (st.h + r.h) % 4294967296⟩

/-- Big-endian byte serialisation of `n` into `k` bytes. -/
def natToBytesBE : Nat → Nat → List Nat
  | 0, _ => []
  | k + 1, n => natToBytesBE k (n / 256) ++ [n % 256]

/-- Group a byte list into big-endian 32-bit words (length assumed ≡ 0 mod 4). -/
def bytesToWords : List Nat → List Nat
  | a :: b :: c :: d :: rest => (((a * 256 + b) * 256 + c) * 256 + d) :: bytesToWords rest
  | _ => []

/-- Split a word list into 16-word chunks; `fuel` bounds the recursion. -/
def chunksOf16 : Nat → List Nat → List (List Nat)
  | 0, _ => []
  | _ + 1, [] => []
  | n + 1, w :: ws => (w :: ws).take 16 :: chunksOf16 n ((w :: ws).drop 16)

/-- Number of zero bytes inserted by SHA-256 padding after the `0x80` byte. -/
def sha256PadZeros (len : Nat) : Nat := (64 + 56 - (len + 1) % 64) % 64

/-- SHA-256 of a byte list (`hashlib.sha256(data).digest()`). -/
def sha256 (msg : List Nat) : List Nat :=
  let padded := msg ++ 128 ::
    (List.replicate (sha256PadZeros msg.length) 0 ++ natToBytesBE 8 (msg.length * 8))
  let blocks := chunksOf16 padded.length (bytesToWords padded)
  let st := blocks.foldl sha256Compress sha256H0
  natToBytesBE 4 st.a ++ natToBytesBE 4 st.b ++ natToBytesBE 4 st.c ++
  natToBytesBE 4 st.d ++ natToBytesBE 4 st.e ++ natToBytesBE 4 st.f ++
  natToBytesBE 4 st.g ++ natToBytesBE 4 st.h

/-- Lowercase hex digit for a value < 16. -/
def hexChar (n : Nat) : Char :=
  if n < 10 then Char.ofNat (48 + n) else Char.ofNat (87 + n)

/-- Lowercase hex string of a byte list (`.hexdigest()` / `binascii.hexlify`). -/
def bytesToHex (bs : List Nat) : String :=
  String.mk (bs.foldr (fun b acc => hexChar (b / 16) :: hexChar (b % 16) :: acc) [])

/-- Four lowercase hex digits of a value < 65536. -/
def hex4 (n : Nat) : List Char :=
  [hexChar (n / 4096 % 16), hexChar (n / 256 % 16), hexChar (n / 16 % 16), hexChar (n % 16)]

/-- Value of one hex digit (`binascii` accepts both cases). -/
def hexDigitVal (c : Char) : Option Nat :=
  if 48 ≤ c.toNat ∧ c.toNat ≤ 57 then some (c.toNat - 48)
  else if 97 ≤ c.toNat ∧ c.toNat ≤ 102 then some (c.toNat - 87)
  else if 65 ≤ c.toNat ∧ c.toNat ≤ 70 then some (c.toNat - 55)
  else none

/-- Model of `binascii.unhexlify` on a character list: `none` models the raised
`binascii.Error` (odd length or non-hex digit). -/
def unhexlifyChars : List Char → Option (List Nat)
  | [] => some []
  | [_] => none
  | c1 :: c2 :: rest =>
    match hexDigitVal c1, hexDigitVal c2, unhexlifyChars rest with
    | some hi, some lo, some bs => some ((hi * 16 + lo) :: bs)
    | _, _, _ => none

/-- Model of `binascii.unhexlify` on a string. -/
def unhexlify (s : String) : Option (List Nat) := unhexlifyChars s.data

/-- UTF-8 encoding of a single code point. -/
def utf8Char (c : Nat) : List Nat :=
  if c < 128 then [c]
  else if c < 2048 then [192 + c / 64, 128 + c % 64]
  else if c < 65536 then [224 + c / 4096, 128 + c / 64 % 64, 128 + c % 64]
  else [240 + c / 262144, 128 + c / 4096 % 64, 128 + c / 64 % 64, 128 + c % 64]

/-- Model of `str.encode('utf-8')`: the UTF-8 byte sequence of a string. -/
def strUtf8 (s : String) : List Nat :=
  s.data.foldr (fun c acc => utf8Char c.toNat ++ acc) []

-- Part 2b: `scripts/gen_cert.py`

/-- The five certificate fields handled by `gen_cert.py`. -/
structure CertificateDetails where
  event : String
  organizer : String
  date : String
  recipient_name : String
  recipient_address : String
deriving DecidableEq, Repr

/-- The canonical hash input of `verify_certificate_hash`:
`f"{event}|{organizer}|{date}|{recipient_name}|{recipient_address}"`. -/
def hash_input (cd : CertificateDetails) : String :=
  cd.event ++ "|" ++ cd.organizer ++ "|" ++ cd.date ++ "|" ++
  cd.recipient_name ++ "|" ++ cd.recipient_address

/-- Computes `hashlib.sha256(hash_input.encode('utf-8')).hexdigest()` as in
`verify_certificate_hash`. -/
def calculated_hash (cd : CertificateDetails) : String :=
  bytesToHex (sha256 (strUtf8 (hash_input cd)))

/-- Model of `gen_cert.verify_certificate_hash(certificate_details, certificate_hash)`.
The Python guard `if not certificate_hash or not certificate_details` is the
empty-string test on `certificate_hash` (the details record is never falsy
once constructed). -/
def verify_certificate_hash (cd : CertificateDetails) (certificate_hash : String) : Bool :=
  if certificate_hash = "" then false
  else calculated_hash cd == certificate_hash

-- Part 2c: JSON serialisation (`json.dumps` / pydantic `.json()` with the
-- default separators `", "` and `": "` and `ensure_ascii=True`).

/-- Escape of one character inside a JSON string literal, as produced by
`json.dumps` with its default `ensure_ascii=True`. -/
def jsonEscapeChar (c : Char) : List Char :=
  if c = '"' then ['\\', '"']
  else if c = '\\' then ['\\', '\\']
  else if c.toNat = 8 then ['\\', 'b']
  else if c.toNat = 9 then ['\\', 't']
  else if c.toNat = 10 then ['\\', 'n']
  else if c.toNat = 12 then ['\\', 'f']
  else if c.toNat = 13 then ['\\', 'r']
  else if c.toNat < 32 ∨ 127 ≤ c.toNat then
    if c.toNat < 65536 then '\\' :: 'u' :: hex4 c.toNat
    else
      ('\\' :: 'u' :: hex4 (55296 + (c.toNat - 65536) / 1024)) ++
      ('\\' :: 'u' :: hex4 (56320 + (c.toNat - 65536) % 1024))
  else [c]

/-- A JSON string literal (with surrounding quotes). -/
def jsonStr (s : String) : String :=
  "\"" ++ String.mk (s.data.foldr (fun c acc => jsonEscapeChar c ++ acc) []) ++ "\""

/-- Python `sep.join(parts)`. -/
def pyJoin (sep : String) : List String → String
  | [] => ""
  | [x] => x
  | x :: y :: rest => x ++ sep ++ pyJoin sep (y :: rest)

/-- Model of `json.dumps` for a flat object with string values, keys in insertion
order. -/
def jsonObj (kvs : List (String × String)) : String :=
  "\x7b" ++ pyJoin ", " (kvs.map (fun kv => jsonStr kv.1 ++ ": " ++ jsonStr kv.2)) ++ "\x7d"

-- Part 2d: the two minting scripts

/-- The fields of an `algosdk` `AssetConfigTxn` as built by the minting
scripts (only the fields the scripts set). -/
structure AssetConfigTxn where
  sender : String
  total : Nat
  default_frozen : Bool
  unit_name : String
  asset_name : String
  manager : String
  reserve : String
  freeze : String
  clawback : String
  url : String
  metadata_hash : List Nat
  note : List Nat
  decimals : Nat
deriving DecidableEq, Repr

/-- The request body of the `/mint` endpoint of `scripts/mint.py`. -/
structure NFTPayload where
  event : String
  organizer : String
  date : String
  certificate_hash : String
  email : String
deriving DecidableEq, Repr

/-- Model of `nft_payload.json()`: pydantic serialises the declared fields in
declaration order. -/
def NFTPayload.json (p : NFTPayload) : String :=
  jsonObj [("event", p.event), ("organizer", p.organizer), ("date", p.date),
           ("certificate_hash", p.certificate_hash), ("email", p.email)]

namespace Mint

/-- The `AssetConfigTxn` built by `mint_nft` in `scripts/mint.py`: the
metadata hash is `hashlib.sha256(nft_payload.certificate_hash.encode()).digest()`
(the digest of the hex STRING), the note is `nft_payload.json().encode()`. -/
def mint_nft (deployer_address : String) (p : NFTPayload) : AssetConfigTxn :=
  let digest := sha256 (strUtf8 p.certificate_hash)
  let note := strUtf8 p.json
  { sender := deployer_address
    total := 1
    default_frozen := false
    unit_name := "POAP"
    asset_name := "POAP-" ++ p.event
    manager := ""
    reserve := ""
    freeze := ""
    clawback := ""
    url := "https://yourapp.example/metadata.json"
    metadata_hash := digest
    note := note
    decimals := 0 }

end Mint

/-- The metadata dict passed to `mint_nft` in `scripts/mint_nft.py`. -/
structure NFTMetadata where
  event : String
  organizer : String
  date : String
  certificate_hash : String
deriving DecidableEq, Repr

/-- Model of `json.dumps(nft_metadata)` for the four-key metadata dict. -/
def NFTMetadata.json (m : NFTMetadata) : String :=
  jsonObj [("event", m.event), ("organizer", m.organizer), ("date", m.date),
           ("certificate_hash", m.certificate_hash)]

namespace MintNft

/-- The `AssetConfigTxn` built by `mint_nft` in `scripts/mint_nft.py`:
`metadata_hash = binascii.unhexlify(certificate_hash)` and
`note = json.dumps(nft_metadata).encode()`.  `none` models the
`binascii.Error` raised on a malformed hex string. -/
def mint_nft (deployer_address : String) (m : NFTMetadata) : Option AssetConfigTxn :=
  match unhexlify m.certificate_hash with
  | none => none
  | some metadata_hash_bytes =>
    some
      { sender := deployer_address
        total := 1
        default_frozen := false
        unit_name := "POAP"
        asset_name := "POAP-RiseHack25-RDS"
        manager := ""
        reserve := ""
        freeze := ""
        clawback := ""
        url := "https://yourapp.example/metadata.json"
        metadata_hash := metadata_hash_bytes
        note := strUtf8 m.json
        decimals := 0 }

end MintNft

-- Part 2e: `verify.py`

/-- Substring test on character lists (Python `needle in hay`). -/
def subAux (needle : List Char) : List Char → Bool
  | [] => needle.isEmpty
  | c :: rest => needle.isPrefixOf (c :: rest) || subAux needle rest

/-- Python `needle in hay` for strings. -/
def strContains (hay needle : String) : Bool := subAux needle.data hay.data

/-- The `params` dict of an asset, fields optional as with `dict.get`. -/
structure AssetParams where
  total : Option Nat
  decimals : Option Nat
  unit_name : Option String
  name : Option String
  creator : Option String
deriving DecidableEq, Repr

/-- The asset-info record returned by `algod_client.asset_info`. -/
structure AssetInfo where
  params : AssetParams
deriving DecidableEq, Repr

/-- The four boolean checks computed by `verify_poap_structure`. -/
structure VerificationResults where
  is_nft : Bool
  correct_unit_name : Bool
  correct_name_format : Bool
  correct_creator : Bool
deriving DecidableEq, Repr

/-- Model of `POAPVerifier.verify_poap_structure(asset_info)`. -/
def verify_poap_structure (deployer_address : String) (asset_info : AssetInfo) :
    VerificationResults × AssetParams :=
  let params := asset_info.params
  ({ is_nft := params.total == some 1 && params.decimals == some 0
     correct_unit_name := params.unit_name == some "POAP"
     correct_name_format := strContains (params.name.getD "") "POAP"
     correct_creator := params.creator == some deployer_address }, params)

/-- Python `passed_checks = sum(verification_results.values())`. -/
def passed_checks (r : VerificationResults) : Nat :=
  (cond r.is_nft 1 0) + (cond r.correct_unit_name 1 0) +
  (cond r.correct_name_format 1 0) + (cond r.correct_creator 1 0)

/-- Python `total_checks = len(verification_results)`. -/
def total_checks : Nat := 4

/-- Python `overall_valid = passed_checks == total_checks`. -/
def overall_valid (r : VerificationResults) : Bool :=
  passed_checks r == total_checks

/-- The dict returned by `comprehensive_verification`. -/
structure VerifyReport where
  asset_id : Nat
  asset_info : AssetParams
  verification_results : VerificationResults
  note_content : Option String
  overall_valid : Bool
deriving DecidableEq, Repr

/-- Model of `POAPVerifier.comprehensive_verification(asset_id)`.  `algod` models
`algod_client.asset_info` (an `Except.error` is a raised SDK exception, and
`comprehensive_verification` has no try/except around its call, so the error
propagates).  `note` models `extract_note_from_creation_tx`, which wraps all
of its work in try/except and therefore never raises; its result is opaque
to the claims and modelled as an optional string. -/
def comprehensive_verification (deployer_address : String)
    (algod : Nat → Except String AssetInfo) (note : Nat → Option String)
    (asset_id : Nat) : Except String VerifyReport :=
  match algod asset_id with
  | Except.error e => Except.error e
  | Except.ok asset_info =>
    let vr := (verify_poap_structure deployer_address asset_info).1
    let params := (verify_poap_structure deployer_address asset_info).2
    Except.ok
      { asset_id := asset_id
        asset_info := params
        verification_results := vr
        note_content := note asset_id
        overall_valid := overall_valid vr }

/-- The JSON body returned by the `/verify` endpoint: either the structured
error dict `{"asset_id": ..., "error": ...}` or the verification report. -/
inductive VerifyPoapResult where
  | err (asset_id : Nat) (error : String)
  | report (asset_id : Nat) (verification_results : VerificationResults)
      (note_content : Option String) (overall : Bool)
deriving DecidableEq, Repr

/-- The `/verify` endpoint `verify_poap` of `verify.py`: tries algod, falls
back to the indexer when one is configured, and returns the structured error
dict when both raise. -/
def verify_poap (deployer_address : String)
    (algod : Nat → Except String AssetInfo)
    (indexer : Option (Nat → Except String AssetInfo))
    (note : Nat → Option String) (asset_id : Nat) : VerifyPoapResult :=
  let fetched : Except String AssetInfo :=
    match algod asset_id with
    | Except.ok i => Except.ok i
    | Except.error _ =>
      match indexer with
      | some idx => idx asset_id
      | none => Except.error "no indexer"
  match fetched with
  | Except.error _ => VerifyPoapResult.err asset_id "asset does not exist on TestNet"
  | Except.ok asset_info =>
    let vr := (verify_poap_structure deployer_address asset_info).1
    VerifyPoapResult.report asset_id vr (note asset_id) (overall_valid vr)

/-- The `/verify-multiple` endpoint `verify_multiple_poaps` of `verify.py`:
a sequential loop of `comprehensive_verification` with no try/except, so an
exception raised for any asset id aborts the whole request. -/
def verify_multiple_poaps (deployer_address : String)
    (algod : Nat → Except String AssetInfo) (note : Nat → Option String) :
    List Nat → Except String (List VerifyReport)
  | [] => Except.ok []
  | i :: rest =>
    match comprehensive_verification deployer_address algod note i with
    | Except.error e => Except.error e
    | Except.ok r =>
      match verify_multiple_poaps deployer_address algod note rest with
      | Except.error e => Except.error e
      | Except.ok rs => Except.ok (r :: rs)

-- Box-store lemmas

theorem boxGet_boxSet_same (m : BoxStore) (k v d : Bytes) :
    boxGet (boxSet m k v) k d = v := by
  induction m with
  | nil => simp [boxSet, boxGet]
  | cons p rest ih =>
    by_cases h : p.1 = k
    · simp [boxSet, boxGet, h]
    · simp [boxSet, boxGet, h, ih]

theorem boxGet_boxSet_other (m : BoxStore) (k k' v d : Bytes) (hne : k ≠ k') :
    boxGet (boxSet m k v) k' d = boxGet m k' d := by
  induction m with
  | nil => simp [boxSet, boxGet, hne]
  | cons p rest ih =>
    by_cases h : p.1 = k
    · simp [boxSet, boxGet, h, hne]
    · simp only [boxSet, boxGet, if_neg h]
      by_cases h' : p.1 = k'
      · simp [h']
      · simp [h', ih]

theorem boxGet_of_not_hasKey (m : BoxStore) (k d : Bytes)
    (h : boxHasKey m k = false) : boxGet m k d = d := by
  induction m with
  | nil => rfl
  | cons p rest ih =>
    by_cases hk : p.1 = k
    · simp [boxHasKey, hk] at h
    · simp only [boxHasKey, if_neg hk] at h
      simp [boxGet, hk, ih h]

-- Claim theorems: certificate registry

/-- C1: for every certificate hash `h` with no existing registry entry,
`register_certificate(h)` invoked by identity `A` succeeds, creates the entry
`h → A`, and a subsequent `verify_certificate(h)` returns `A`. -/
theorem register_then_verify_returns_registrant (s : RegistryState) (h A : Bytes)
    (hfree : boxHasKey s.certificates h = false) :
    ∃ s', register_certificate A h s = Except.ok (s', []) ∧
      verify_certificate h s' = Except.ok (s', A) := by
  have hget : boxGet s.certificates h [] = [] := boxGet_of_not_hasKey _ _ _ hfree
  refine ⟨⟨boxSet s.certificates h A⟩, ?_, ?_⟩
  · simp [register_certificate, hget]
  · simp [verify_certificate, boxGet_boxSet_same]

/-- Witness for C1 at the freshly deployed contract and hash `[1]`. -/
theorem register_then_verify_returns_registrant_witness :
    ∃ s', register_certificate addrA [1] ⟨[]⟩ = Except.ok (s', []) ∧
      verify_certificate [1] s' = Except.ok (s', addrA) :=
  register_then_verify_returns_registrant ⟨[]⟩ [1] addrA (by decide)

/-- C2 counterexample: the state whose only entry is `[1] ↦ b""` is reachable
(register by `addrA`, then transfer to the empty byte string), it does contain
an entry for `[1]`, yet `register_certificate` by `addrB` succeeds instead of
rejecting — the `get(default=b"")` lookup cannot tell a stored empty owner
from an absent entry. -/
theorem register_accepts_empty_owner_entry :
    Reachable ⟨[([1], [])]⟩ ∧
    boxHasKey (RegistryState.mk [([1], [])]).certificates [1] = true ∧
    register_certificate addrB [1] ⟨[([1], [])]⟩ =
      Except.ok (⟨[([1], addrB)]⟩, []) := by
  have h1 : register_certificate addrA [1] ⟨[]⟩ =
      Except.ok (⟨[([1], addrA)]⟩, []) := rfl
  have h2 : transfer_certificate addrA [1] [] ⟨[([1], addrA)]⟩ =
      Except.ok (⟨[([1], [])]⟩, []) := rfl
  exact ⟨Reachable.transfer _ _ addrA [1] [] []
    (Reachable.register _ _ addrA [1] [] Reachable.init (by decide) h1)
    (by decide) h2, by decide, rfl⟩

/-- C2 (amended): `register_certificate(h)` rejects iff the box lookup with
empty default returns a non-empty owner; an entry whose stored owner is the
empty byte string is treated as absent, and register then succeeds
(overwriting it). -/
theorem register_rejects_iff_nonempty_owner (s : RegistryState) (h sender : Bytes) :
    (∃ e, register_certificate sender h s = Except.error e) ↔
      boxGet s.certificates h [] ≠ [] := by
  unfold register_certificate
  by_cases hg : boxGet s.certificates h [] = []
  · simp [hg]
  · simp [hg]

/-- C3: for registered `h` with owner `O` and a valid 32-byte sender:
a transfer by any sender ≠ `O` rejects and leaves the owner `O`; a transfer by
`O` succeeds and a subsequent verify returns the new owner `N`; a transfer on
an unregistered hash rejects. -/
theorem transfer_ownership_spec (s : RegistryState) (h N sender : Bytes)
    (hsender : sender.length = 32) :
    (∀ O, boxHasKey s.certificates h = true → boxGet s.certificates h [] = O →
      ((sender ≠ O → (∃ e, transfer_certificate sender h N s = Except.error e) ∧
          boxGet (runCall s (transfer_certificate sender h N s)).certificates h [] = O) ∧
       (sender = O → ∃ s', transfer_certificate sender h N s = Except.ok (s', []) ∧
          verify_certificate h s' = Except.ok (s', N)))) ∧
    (boxHasKey s.certificates h = false →
      ∃ e, transfer_certificate sender h N s = Except.error e) := by
  constructor
  · intro O _ hO
    constructor
    · intro hne
      by_cases hOemp : O = []
      · subst hOemp
        have herr : transfer_certificate sender h N s =
            Except.error "Certificate not found or not registered." := by
          unfold transfer_certificate
          rw [hO]
          simp
        rw [herr]
        exact ⟨⟨_, rfl⟩, by simpa [runCall] using hO⟩
      · have herr : transfer_certificate sender h N s =
            Except.error "Permission denied: Only the current owner can transfer." := by
          unfold transfer_certificate
          rw [hO]
          have : ¬ O = sender := fun hc => hne hc.symm
          simp [hOemp, this]
        rw [herr]
        exact ⟨⟨_, rfl⟩, by simpa [runCall] using hO⟩
    · intro heq
      subst heq
      have hsne : sender ≠ [] := by
        intro hc
        rw [hc] at hsender
        simp at hsender
      refine ⟨⟨boxSet s.certificates h N⟩, ?_, ?_⟩
      · unfold transfer_certificate
        rw [hO]
        simp [hsne]
      · simp [verify_certificate, boxGet_boxSet_same]
  · intro hnk
    have hget : boxGet s.certificates h [] = [] := boxGet_of_not_hasKey _ _ _ hnk
    refine ⟨"Certificate not found or not registered.", ?_⟩
    unfold transfer_certificate
    rw [hget]
    simp

/-- Witness for C3: the registered owner `addrA` transfers hash `[1]` to `[5]`
and a subsequent verify returns `[5]`. -/
theorem transfer_ownership_spec_witness :
    ∃ s', transfer_certificate addrA [1] [5] ⟨[([1], addrA)]⟩ = Except.ok (s', []) ∧
      verify_certificate [1] s' = Except.ok (s', [5]) :=
  ((transfer_ownership_spec ⟨[([1], addrA)]⟩ [1] [5] addrA (by decide)).1 addrA
    (by decide) (by decide)).2 rfl

/-- C4: a second `register_certificate(h)` on a hash that already has a
(non-empty) registered owner rejects, and the whole registry state after the
rejected call equals the state before it; in particular the owner of `h` is
unchanged. -/
theorem double_register_rejected_atomically (s : RegistryState) (h sender : Bytes)
    (hreg : boxGet s.certificates h [] ≠ []) :
    (∃ e, register_certificate sender h s = Except.error e) ∧
    runCall s (register_certificate sender h s) = s ∧
    boxGet (runCall s (register_certificate sender h s)).certificates h [] =
      boxGet s.certificates h [] := by
  unfold register_certificate runCall
  simp [hreg]

/-- Witness for C4: re-registering hash `[1]`, owned by `addrA`, from `addrB`
is rejected and the state is untouched. -/
theorem double_register_rejected_atomically_witness :
    (∃ e, register_certificate addrB [1] ⟨[([1], addrA)]⟩ = Except.error e) ∧
    runCall ⟨[([1], addrA)]⟩ (register_certificate addrB [1] ⟨[([1], addrA)]⟩) =
      ⟨[([1], addrA)]⟩ ∧
    boxGet (runCall ⟨[([1], addrA)]⟩
        (register_certificate addrB [1] ⟨[([1], addrA)]⟩)).certificates [1] [] =
      boxGet (RegistryState.mk [([1], addrA)]).certificates [1] [] :=
  double_register_rejected_atomically ⟨[([1], addrA)]⟩ [1] addrB (by decide)

/-- C5: `verify_certificate` is a pure read — it always succeeds and returns
the state unchanged — and for every hash with no registry entry it returns the
empty-bytes sentinel. -/
theorem verify_unregistered_returns_sentinel (s : RegistryState) (h : Bytes) :
    (∃ v, verify_certificate h s = Except.ok (s, v)) ∧
    (boxHasKey s.certificates h = false →
      verify_certificate h s = Except.ok (s, [])) := by
  constructor
  · exact ⟨_, rfl⟩
  · intro hnk
    unfold verify_certificate
    rw [boxGet_of_not_hasKey _ _ _ hnk]

/-- Witness for C5 at a state not containing hash `[3]`. -/
theorem verify_unregistered_returns_sentinel_witness :
    verify_certificate [3] ⟨[([1], addrA)]⟩ = Except.ok (⟨[([1], addrA)]⟩, []) :=
  (verify_unregistered_returns_sentinel ⟨[([1], addrA)]⟩ [3]).2 (by decide)

/-- C6 counterexample: in the reachable state whose entry is `[1] ↦ b""`,
`register_certificate` invoked by `addrB` changes the existing entry's owner
from `b""` to `addrB`, yet `addrB` is not the prior owner — refuting the
claimed invariant as stated. -/
theorem owner_change_by_non_owner_counterexample :
    ¬ (∀ (s s' : RegistryState) (sender k : Bytes),
        Reachable s → sender.length = 32 → registryStep sender s s' →
        boxHasKey s.certificates k = true →
        boxGet s'.certificates k [] ≠ boxGet s.certificates k [] →
        sender = boxGet s.certificates k []) := by
  intro hcl
  have h1 : register_certificate addrA [1] ⟨[]⟩ =
      Except.ok (⟨[([1], addrA)]⟩, []) := rfl
  have h2 : transfer_certificate addrA [1] [] ⟨[([1], addrA)]⟩ =
      Except.ok (⟨[([1], [])]⟩, []) := rfl
  have hreach : Reachable ⟨[([1], [])]⟩ :=
    Reachable.transfer _ _ addrA [1] [] []
      (Reachable.register _ _ addrA [1] [] Reachable.init (by decide) h1)
      (by decide) h2
  have hstep : registryStep addrB ⟨[([1], [])]⟩ ⟨[([1], addrB)]⟩ :=
    Or.inl ⟨[1], [], rfl⟩
  have hres := hcl ⟨[([1], [])]⟩ ⟨[([1], addrB)]⟩ addrB [1] hreach (by decide)
    hstep (by decide) (by decide)
  exact absurd hres (by decide)

/-- C6 (amended): over every reachable state, whenever a successful call
changes the value of an entry whose stored owner is non-empty, the calling
identity equals that entry's owner immediately before the call.  (Entries
whose stored owner is the empty byte string are not protected: register may
overwrite them, as the counterexample shows.) -/
theorem nonempty_owner_change_requires_owner (s s' : RegistryState) (sender k : Bytes)
    (_hreach : Reachable s) (hstep : registryStep sender s s')
    (hne : boxGet s.certificates k [] ≠ [])
    (hch : boxGet s'.certificates k [] ≠ boxGet s.certificates k []) :
    sender = boxGet s.certificates k [] := by
  rcases hstep with ⟨h, v, hok⟩ | ⟨h, n, v, hok⟩
  · unfold register_certificate at hok
    by_cases hg : boxGet s.certificates h [] = []
    · rw [if_pos hg] at hok
      have hs' : s' = ⟨boxSet s.certificates h sender⟩ := by
        cases hok
        rfl
      by_cases hkh : h = k
      · subst hkh
        exact absurd hg hne
      · rw [hs'] at hch
        exact absurd (boxGet_boxSet_other s.certificates h k sender [] hkh) hch
    · rw [if_neg hg] at hok
      exact absurd hok (by simp)
  · unfold transfer_certificate at hok
    by_cases hg : boxGet s.certificates h [] = []
    · rw [if_pos hg] at hok
      exact absurd hok (by simp)
    · rw [if_neg hg] at hok
      by_cases hsend : boxGet s.certificates h [] = sender
      · rw [if_pos hsend] at hok
        have hs' : s' = ⟨boxSet s.certificates h n⟩ := by
          cases hok
          rfl
        by_cases hkh : h = k
        · subst hkh
          exact hsend.symm
        · rw [hs'] at hch
          exact absurd (boxGet_boxSet_other s.certificates h k n [] hkh) hch
      · rw [if_neg hsend] at hok
        exact absurd hok (by simp)

/-- Witness for the amended C6: the owner `addrA` transferring its own entry
satisfies the invariant's conclusion. -/
theorem nonempty_owner_change_requires_owner_witness :
    addrA = boxGet (RegistryState.mk [([1], addrA)]).certificates [1] [] :=
  nonempty_owner_change_requires_owner ⟨[([1], addrA)]⟩ ⟨[([1], [5])]⟩ addrA [1]
    (Reachable.register _ _ addrA [1] [] Reachable.init (by decide) rfl)
    (Or.inr ⟨[1], [5], [], rfl⟩) (by decide) (by decide)

-- Supporting sanity theorems: the SHA-256 model matches FIPS 180-4 test
-- vectors.

/-- SHA-256 of the empty message (FIPS test vector). -/
theorem sha256_empty_vector :
    bytesToHex (sha256 []) =
      "e3b0c44298fc1c149afbf4c8996fb92427ae41e4649b934ca495991b7852b855" := by
  decide

/-- SHA-256 of `"abc"` (FIPS test vector). -/
theorem sha256_abc_vector :
    bytesToHex (sha256 (strUtf8 "abc")) =
      "ba7816bf8f01cfea414140de5dae2223b00361a396177a9cb410ff61f20015ad" := by
  decide

-- Claim theorems: off-chain scripts

/-- C7: the certificate digest of `gen_cert.verify_certificate_hash` is
SHA-256 of the five fields joined in order `event, organizer, date,
recipient_name, recipient_address` with the delimiter `"|"`, and it is
deterministic: any details record with the same five field values yields the
same digest. -/
theorem certificate_digest_formula (e o d n a : String) :
    calculated_hash ⟨e, o, d, n, a⟩ =
      bytesToHex (sha256 (strUtf8 (e ++ "|" ++ o ++ "|" ++ d ++ "|" ++ n ++ "|" ++ a))) ∧
    (∀ cd : CertificateDetails, cd.event = e → cd.organizer = o → cd.date = d →
      cd.recipient_name = n → cd.recipient_address = a →
      calculated_hash cd = calculated_hash ⟨e, o, d, n, a⟩) := by
  refine ⟨rfl, ?_⟩
  intro cd h1 h2 h3 h4 h5
  have hcd : cd = ⟨e, o, d, n, a⟩ := by
    cases cd
    simp_all
  rw [hcd]

/-- Witness for C7 at concrete field values. -/
theorem certificate_digest_formula_witness :
    calculated_hash ⟨"Rise Hackathon 2025", "UIT", "2025-09-16", "RDS", "ADDR1"⟩ =
      calculated_hash ⟨"Rise Hackathon 2025", "UIT", "2025-09-16", "RDS", "ADDR1"⟩ :=
  (certificate_digest_formula "Rise Hackathon 2025" "UIT" "2025-09-16" "RDS" "ADDR1").2
    ⟨"Rise Hackathon 2025", "UIT", "2025-09-16", "RDS", "ADDR1"⟩ rfl rfl rfl rfl rfl

/-- The 64-character hex string used as example `certificate_hash` in
`scripts/mint_nft.py`. -/
def exampleCertHashHex : String :=
  "abcdef1234567890abcdef1234567890abcdef1234567890abcdef1234567890"

/-- The 32 digest bytes denoted by `exampleCertHashHex`. -/
def exampleCertDigest : List Nat :=
  [171, 205, 239, 18, 52, 86, 120, 144, 171, 205, 239, 18, 52, 86, 120, 144,
   171, 205, 239, 18, 52, 86, 120, 144, 171, 205, 239, 18, 52, 86, 120, 144]

set_option maxRecDepth 16384

/-- C8 counterexample: for the repository's own example certificate hash,
the `/mint` endpoint of `scripts/mint.py` embeds
`sha256(certificate_hash.encode()).digest()` — the SHA-256 of the hex STRING
— as the asset's metadata hash, which differs from the digest the hex string
denotes (`unhexlify`), refuting the claim for that minting operation. -/
theorem mint_metadata_hash_not_cert_digest :
    unhexlify exampleCertHashHex = some exampleCertDigest ∧
    (Mint.mint_nft "DEPLOYER"
        ⟨"Rise Hackathon 2025", "University Institute of Technology",
         "2025-09-16", exampleCertHashHex, "user@example.com"⟩).metadata_hash ≠
      exampleCertDigest := by
  constructor
  · decide
  · decide

/-- C8 (amended): each mint builds a single create-asset transaction whose
note is the JSON serialisation of the certificate fields; in
`scripts/mint_nft.py` the metadata-hash bytes are the digest denoted by the
supplied `certificate_hash` (`unhexlify`), while in `scripts/mint.py` they
are the SHA-256 digest of the UTF-8 bytes of the `certificate_hash` string
itself, not the digest that string denotes. -/
theorem minting_txn_fields_spec (dep : String) (p : NFTPayload) (m : NFTMetadata) :
    (Mint.mint_nft dep p).metadata_hash = sha256 (strUtf8 p.certificate_hash) ∧
    (Mint.mint_nft dep p).note = strUtf8 p.json ∧
    (∀ bs, unhexlify m.certificate_hash = some bs →
      ∃ txn, MintNft.mint_nft dep m = some txn ∧
        txn.metadata_hash = bs ∧ txn.note = strUtf8 m.json) := by
  refine ⟨rfl, rfl, ?_⟩
  intro bs hbs
  unfold MintNft.mint_nft
  rw [hbs]
  exact ⟨_, rfl, rfl, rfl⟩

/-- Witness for the amended C8: `mint_nft.py` minting with certificate hash
`"ab"` embeds the denoted byte `0xab` and the JSON note. -/
theorem minting_txn_fields_spec_witness :
    ∃ txn, MintNft.mint_nft "DEP" ⟨"E", "O", "D", "ab"⟩ = some txn ∧
      txn.metadata_hash = [171] ∧
      txn.note = strUtf8 (NFTMetadata.json ⟨"E", "O", "D", "ab"⟩) :=
  (minting_txn_fields_spec "DEP" ⟨"x", "y", "z", "w", "v"⟩ ⟨"E", "O", "D", "ab"⟩).2.2
    [171] (by decide)

/-- C9: structural verification computes the four boolean checks and the
aggregate `overall_valid` equals the conjunction of the four; an asset with
supply 1, decimals 0, unit name `"POAP"`, a name containing `"POAP"` and the
expected creator passes all four checks and is valid overall. -/
theorem poap_structure_four_checks (dep : String) (info : AssetInfo) (nm : String)
    (hname : strContains nm "POAP" = true) :
    (overall_valid (verify_poap_structure dep info).1 =
      ((verify_poap_structure dep info).1.is_nft &&
       (verify_poap_structure dep info).1.correct_unit_name &&
       (verify_poap_structure dep info).1.correct_name_format &&
       (verify_poap_structure dep info).1.correct_creator)) ∧
    ((verify_poap_structure dep
        ⟨⟨some 1, some 0, some "POAP", some nm, some dep⟩⟩).1 =
      ⟨true, true, true, true⟩ ∧
     overall_valid (verify_poap_structure dep
        ⟨⟨some 1, some 0, some "POAP", some nm, some dep⟩⟩).1 = true) := by
  constructor
  · rcases hvr : (verify_poap_structure dep info).1 with ⟨b1, b2, b3, b4⟩
    cases b1 <;> cases b2 <;> cases b3 <;> cases b4 <;> rfl
  · have hvr : (verify_poap_structure dep
        ⟨⟨some 1, some 0, some "POAP", some nm, some dep⟩⟩).1 =
        ⟨true, true, true, true⟩ := by
      simp [verify_poap_structure, hname, Option.getD]
    exact ⟨hvr, by rw [hvr]; decide⟩

/-- Witness for C9 at a concrete asset whose name is `"POAP-Rise"`. -/
theorem poap_structure_four_checks_witness :
    (verify_poap_structure "DEP"
        ⟨⟨some 1, some 0, some "POAP", some "POAP-Rise", some "DEP"⟩⟩).1 =
      ⟨true, true, true, true⟩ ∧
    overall_valid (verify_poap_structure "DEP"
        ⟨⟨some 1, some 0, some "POAP", some "POAP-Rise", some "DEP"⟩⟩).1 = true :=
  (poap_structure_four_checks "DEP" ⟨⟨none, none, none, none, none⟩⟩ "POAP-Rise"
    (by decide)).2

/-- C10 counterexample: for an asset id absent from the ledger the
`/verify-multiple` endpoint propagates the exception raised by
`algod_client.asset_info` (there is no try/except in
`comprehensive_verification` or the loop), instead of returning a structured
"not found" result for that identifier. -/
theorem verify_multiple_raises_counterexample :
    verify_multiple_poaps "DEP" (fun _ => Except.error "asset not found")
      (fun _ => none) [7] = Except.error "asset not found" ∧
    ¬ ∃ rs, verify_multiple_poaps "DEP" (fun _ => Except.error "asset not found")
      (fun _ => none) [7] = Except.ok rs := by
  refine ⟨rfl, ?_⟩
  rintro ⟨rs, hrs⟩
  simp [verify_multiple_poaps, comprehensive_verification] at hrs

/-- C10 (amended): for an asset id on which the ledger lookups raise, the
`/verify` endpoint returns the structured error dict
`{"asset_id": ..., "error": "asset does not exist on TestNet"}` (with or
without an indexer), while `/verify-multiple` propagates the lookup
exception and aborts the whole request. -/
theorem not_found_handling_spec (dep : String)
    (algod idx : Nat → Except String AssetInfo) (note : Nat → Option String)
    (i : Nat) (ea : String) (rest : List Nat)
    (ha : algod i = Except.error ea) :
    verify_poap dep algod none note i =
      VerifyPoapResult.err i "asset does not exist on TestNet" ∧
    (∀ eb, idx i = Except.error eb →
      verify_poap dep algod (some idx) note i =
        VerifyPoapResult.err i "asset does not exist on TestNet") ∧
    verify_multiple_poaps dep algod note (i :: rest) = Except.error ea := by
  refine ⟨?_, ?_, ?_⟩
  · simp [verify_poap, ha]
  · intro eb hb
    simp [verify_poap, ha, hb]
  · simp [verify_multiple_poaps, comprehensive_verification, ha]

/-- Witness for the amended C10 at a one-element ledger-less request. -/
theorem not_found_handling_spec_witness :
    verify_poap "D" (fun _ => Except.error "no asset") none (fun _ => none) 7 =
      VerifyPoapResult.err 7 "asset does not exist on TestNet" ∧
    (∀ eb, (fun _ : Nat => Except.error "no asset" : Nat → Except String AssetInfo) 7 =
        Except.error eb →
      verify_poap "D" (fun _ => Except.error "no asset")
        (some (fun _ => Except.error "no asset")) (fun _ => none) 7 =
        VerifyPoapResult.err 7 "asset does not exist on TestNet") ∧
    verify_multiple_poaps "D" (fun _ => Except.error "no asset") (fun _ => none) [7] =
      Except.error "no asset" :=
  not_found_handling_spec "D" (fun _ => Except.error "no asset")
    (fun _ => Except.error "no asset") (fun _ => none) 7 "no asset" [] rfl
